import Mathlib

/-!
Shallow embedding of the model-catalog adapters of the repository
(`src-tauri/src/anthropic/anthropic.rs`, `src-tauri/src/groq/groq.rs`,
`src-tauri/src/openai/openai.rs`) and of the built-in-AI download
registry, together with theorems settling the frozen claims.

Each provider adapter is embedded as a pure function over an explicit
environment: the optional API key, the poisoned-flag of the RwLock
guarding the cache, the cache contents, the current time (Nat seconds,
standing for `Instant`), and the outcome of the single HTTP fetch the
code may attempt.  The result records the returned value, the cache
after the call, the HTTP request issued (if any) and whether the cache
was read, so that the claims about effects are statable.
-/

/-- Embeds Rust's `str::to_lowercase` for the ASCII range (every string the
filter predicates compare against is ASCII). -/
def to_lowercase (s : String) : String :=
  ⟨s.data.map Char.toLower⟩

/-- Embeds Rust's `str::trim` for the ASCII whitespace range. -/
def rust_trim (s : String) : String :=
  ⟨((s.data.dropWhile Char.isWhitespace).reverse.dropWhile Char.isWhitespace).reverse⟩

/-- Embeds Rust's `str::contains` with a string pattern: does the haystack
contain the needle as a contiguous substring. -/
def contains_sub : List Char → List Char → Bool
  | [], needle => needle.isEmpty
  | h :: t, needle => needle.isPrefixOf (h :: t) || contains_sub t needle

/-- Embeds Rust's `str::contains` on strings. -/
def str_contains (s pat : String) : Bool :=
  contains_sub s.data pat.data

/-- Embeds Rust's `str::starts_with` on strings. -/
def str_starts_with (s pat : String) : Bool :=
  pat.data.isPrefixOf s.data

/-- Cache entry for models: the cached list plus its fetch timestamp
(`fetched_at: Instant` in the source, a Nat number of seconds here).
Each provider file declares an identical `CacheEntry` struct; it is
factored here over the model type. -/
structure CacheEntry (M : Type) where
  models : List M
  fetched_at : Nat
deriving Repr, DecidableEq

/-- Cache TTL in seconds (the same constant in all three provider files). -/
def CACHE_TTL_SECS : Nat := 300

/-- An HTTP GET request as built by the adapters: URL, headers, timeout. -/
structure HttpRequest where
  url : String
  headers : List (String × String)
  timeout_secs : Nat
deriving Repr, DecidableEq

/-- Outcome of the single HTTP fetch an adapter may attempt: either the
transport failed (`client.send()` returned `Err`), or a response arrived
with a status code and a body that either parses into the expected
schema (`some a`) or fails to parse (`none`). -/
inductive HttpOutcome (A : Type) where
  | transportError
  | response (status : Nat) (parsed : Option A)

/-- Result of one adapter call: the value returned to the caller, the
cache contents after the call, the request issued on the wire (if any),
and whether the cache lock was taken for reading. -/
structure AdapterOutcome (M : Type) where
  result : Except String (List M)
  cacheAfter : Option (CacheEntry M)
  request : Option HttpRequest
  cacheRead : Bool

/-- Embeds `reqwest::StatusCode::is_success`: 2xx status codes. -/
def status_is_success (status : Nat) : Bool :=
  decide (200 ≤ status ∧ status < 300)

/-- Message produced by `map_err(|e| e.to_string())` on a poisoned
RwLock (`std::sync::PoisonError`'s Display text). -/
def POISONED_LOCK_MSG : String := "poisoned lock: another task failed inside"

namespace Anthropic

/-- Anthropic (Claude) model information returned to frontend. -/
structure AnthropicModel where
  id : String
  display_name : Option String
deriving Repr, DecidableEq

/-- API response model from Anthropic. -/
structure AnthropicApiModel where
  id : String
  display_name : Option String
  created_at : Option String
deriving Repr, DecidableEq

/-- API response wrapper from Anthropic. -/
structure AnthropicApiResponse where
  data : List AnthropicApiModel
deriving Repr, DecidableEq

/-- Fallback models when API fetch fails (matches frontend hardcoded values). -/
def FALLBACK_MODELS : List (String × String) :=
  [("claude-sonnet-4-5-20250929", "Claude 4.5 Sonnet"),
   ("claude-haiku-4-5-20251001", "Claude 4.5 Haiku"),
   ("claude-opus-4-1-20250805", "Claude 4.1 Opus"),
   ("claude-sonnet-4-20250514", "Claude 4 Sonnet")]

/-- Get fallback models as AnthropicModel list. -/
def get_fallback_models : List AnthropicModel :=
  FALLBACK_MODELS.map (fun p => { id := p.1, display_name := some p.2 })

/-- Check if model is a chat-capable model. -/
def is_chat_model (model_id : String) : Bool :=
  let id := to_lowercase model_id
  str_starts_with id "claude-"

/-- Embeds `get_anthropic_models`: return fallback when no usable key;
otherwise serve a fresh cache entry; otherwise fetch, filter to chat
models, fall back on any failure or empty filter result, and cache a
non-empty filtered list. -/
def get_anthropic_models (api_key : Option String) (poisoned : Bool)
    (cache : Option (CacheEntry AnthropicModel)) (now : Nat)
    (http : HttpOutcome AnthropicApiResponse) : AdapterOutcome AnthropicModel :=
  match api_key with
  | none =>
    { result := .ok get_fallback_models, cacheAfter := cache,
      request := none, cacheRead := false }
  | some key =>
    if rust_trim key = "" then
      { result := .ok get_fallback_models, cacheAfter := cache,
        request := none, cacheRead := false }
    else
      let api_key := rust_trim key
      if poisoned then
        { result := .error POISONED_LOCK_MSG, cacheAfter := cache,
          request := none, cacheRead := true }
      else
        let cache_is_fresh :=
          match cache with
          | some entry => decide (now - entry.fetched_at < CACHE_TTL_SECS)
          | none => false
        match cache, cache_is_fresh with
        | some entry, true =>
          { result := .ok entry.models, cacheAfter := cache,
            request := none, cacheRead := true }
        | _, _ =>
          let req : HttpRequest :=
            { url := "https://api.anthropic.com/v1/models",
              headers := [("x-api-key", api_key),
                          ("anthropic-version", "2023-06-01")],
              timeout_secs := 5 }
          match http with
          | .transportError =>
            { result := .ok get_fallback_models, cacheAfter := cache,
              request := some req, cacheRead := true }
          | .response status parsed =>
            if ¬ status_is_success status then
              { result := .ok get_fallback_models, cacheAfter := cache,
                request := some req, cacheRead := true }
            else
              match parsed with
              | none =>
                { result := .ok get_fallback_models, cacheAfter := cache,
                  request := some req, cacheRead := true }
              | some api_response =>
                let models : List AnthropicModel :=
                  (api_response.data.filter (fun m => is_chat_model m.id)).map
                    (fun m => { id := m.id, display_name := m.display_name })
                if models.isEmpty then
                  { result := .ok get_fallback_models, cacheAfter := cache,
                    request := some req, cacheRead := true }
                else
                  { result := .ok models,
                    cacheAfter := some { models := models, fetched_at := now },
                    request := some req, cacheRead := true }

end Anthropic

namespace Groq

/-- Groq model information returned to frontend. -/
structure GroqModel where
  id : String
  owned_by : Option String
deriving Repr, DecidableEq

/-- API response model from Groq (OpenAI-compatible format). -/
structure GroqApiModel where
  id : String
  owned_by : Option String
  object : String
deriving Repr, DecidableEq

/-- API response wrapper from Groq. -/
structure GroqApiResponse where
  data : List GroqApiModel
deriving Repr, DecidableEq

/-- Fallback models when API fetch fails (matches frontend hardcoded values). -/
def FALLBACK_MODELS : List String :=
  ["llama-3.3-70b-versatile"]

/-- Get fallback models as GroqModel list. -/
def get_fallback_models : List GroqModel :=
  FALLBACK_MODELS.map (fun id => { id := id, owned_by := none })

/-- Check if model is a chat-capable model (filter out whisper, etc.). -/
def is_chat_model (model_id : String) : Bool :=
  let id := to_lowercase model_id
  !(str_contains id "whisper") && !(str_contains id "embed") &&
    !(str_contains id "guard") && !(str_contains id "tool-use")

/-- Embeds `get_groq_models`: same caching and fallback state machine as
the Anthropic adapter, with the Groq endpoint, auth header and filter. -/
def get_groq_models (api_key : Option String) (poisoned : Bool)
    (cache : Option (CacheEntry GroqModel)) (now : Nat)
    (http : HttpOutcome GroqApiResponse) : AdapterOutcome GroqModel :=
  match api_key with
  | none =>
    { result := .ok get_fallback_models, cacheAfter := cache,
      request := none, cacheRead := false }
  | some key =>
    if rust_trim key = "" then
      { result := .ok get_fallback_models, cacheAfter := cache,
        request := none, cacheRead := false }
    else
      let api_key := rust_trim key
      if poisoned then
        { result := .error POISONED_LOCK_MSG, cacheAfter := cache,
          request := none, cacheRead := true }
      else
        let cache_is_fresh :=
          match cache with
          | some entry => decide (now - entry.fetched_at < CACHE_TTL_SECS)
          | none => false
        match cache, cache_is_fresh with
        | some entry, true =>
          { result := .ok entry.models, cacheAfter := cache,
            request := none, cacheRead := true }
        | _, _ =>
          let req : HttpRequest :=
            { url := "https://api.groq.com/openai/v1/models",
              headers := [("Authorization", "Bearer " ++ api_key)],
              timeout_secs := 5 }
          match http with
          | .transportError =>
            { result := .ok get_fallback_models, cacheAfter := cache,
              request := some req, cacheRead := true }
          | .response status parsed =>
            if ¬ status_is_success status then
              { result := .ok get_fallback_models, cacheAfter := cache,
                request := some req, cacheRead := true }
            else
              match parsed with
              | none =>
                { result := .ok get_fallback_models, cacheAfter := cache,
                  request := some req, cacheRead := true }
              | some api_response =>
                let models : List GroqModel :=
                  (api_response.data.filter (fun m => is_chat_model m.id)).map
                    (fun m => { id := m.id, owned_by := m.owned_by })
                if models.isEmpty then
                  { result := .ok get_fallback_models, cacheAfter := cache,
                    request := some req, cacheRead := true }
                else
                  { result := .ok models,
                    cacheAfter := some { models := models, fetched_at := now },
                    request := some req, cacheRead := true }

end Groq

namespace OpenAI

/-- OpenAI model information returned to frontend. -/
structure OpenAIModel where
  id : String
deriving Repr, DecidableEq

/-- API response model from OpenAI. -/
structure OpenAIApiModel where
  id : String
  object : String
  owned_by : String
deriving Repr, DecidableEq

/-- API response wrapper from OpenAI. -/
structure OpenAIApiResponse where
  data : List OpenAIApiModel
deriving Repr, DecidableEq

/-- Fallback models when API fetch fails (matches frontend hardcoded values). -/
def FALLBACK_MODELS : List String :=
  ["gpt-5", "gpt-5-mini", "gpt-4o", "gpt-4.1", "gpt-4-turbo", "gpt-3.5-turbo",
   "gpt-4o-2024-11-20", "gpt-4o-2024-08-06", "gpt-4o-mini-2024-07-18",
   "gpt-4.1-2025-04-14", "gpt-4.1-nano-2025-04-14", "gpt-4.1-mini-2025-04-14",
   "o4-mini-2025-04-16", "o3-2025-04-16", "o3-mini-2025-01-31",
   "o1-2024-12-17", "o1-mini-2024-09-12", "gpt-4-turbo-2024-04-09",
   "gpt-4-0125-Preview", "gpt-4-vision-preview", "gpt-4-1106-Preview",
   "gpt-3.5-turbo-0125", "gpt-3.5-turbo-1106"]

/-- Get fallback models as OpenAIModel list. -/
def get_fallback_models : List OpenAIModel :=
  FALLBACK_MODELS.map (fun id => { id := id })

/-- Check if model is a chat-capable model (filter out embedding, tts, etc.). -/
def is_chat_model (model_id : String) : Bool :=
  let id := to_lowercase model_id
  (str_starts_with id "gpt-" || str_starts_with id "o1-" ||
      str_starts_with id "o3-" || str_starts_with id "o4-" ||
      str_starts_with id "chatgpt-") &&
    !(str_contains id "embedding") && !(str_contains id "tts") &&
    !(str_contains id "whisper") && !(str_contains id "dall-e") &&
    !(str_contains id "babbage") && !(str_contains id "davinci") &&
    !(str_contains id "instruct") && !(str_contains id "realtime") &&
    !(str_contains id "audio")

/-- Embeds `get_openai_models`: same caching and fallback state machine as
the Anthropic adapter, with the OpenAI endpoint, auth header and filter. -/
def get_openai_models (api_key : Option String) (poisoned : Bool)
    (cache : Option (CacheEntry OpenAIModel)) (now : Nat)
    (http : HttpOutcome OpenAIApiResponse) : AdapterOutcome OpenAIModel :=
  match api_key with
  | none =>
    { result := .ok get_fallback_models, cacheAfter := cache,
      request := none, cacheRead := false }
  | some key =>
    if rust_trim key = "" then
      { result := .ok get_fallback_models, cacheAfter := cache,
        request := none, cacheRead := false }
    else
      let api_key := rust_trim key
      if poisoned then
        { result := .error POISONED_LOCK_MSG, cacheAfter := cache,
          request := none, cacheRead := true }
      else
        let cache_is_fresh :=
          match cache with
          | some entry => decide (now - entry.fetched_at < CACHE_TTL_SECS)
          | none => false
        match cache, cache_is_fresh with
        | some entry, true =>
          { result := .ok entry.models, cacheAfter := cache,
            request := none, cacheRead := true }
        | _, _ =>
          let req : HttpRequest :=
            { url := "https://api.openai.com/v1/models",
              headers := [("Authorization", "Bearer " ++ api_key)],
              timeout_secs := 5 }
          match http with
          | .transportError =>
            { result := .ok get_fallback_models, cacheAfter := cache,
              request := some req, cacheRead := true }
          | .response status parsed =>
            if ¬ status_is_success status then
              { result := .ok get_fallback_models, cacheAfter := cache,
                request := some req, cacheRead := true }
            else
              match parsed with
              | none =>
                { result := .ok get_fallback_models, cacheAfter := cache,
                  request := some req, cacheRead := true }
              | some api_response =>
                let models : List OpenAIModel :=
                  (api_response.data.filter (fun m => is_chat_model m.id)).map
                    (fun m => { id := m.id })
                if models.isEmpty then
                  { result := .ok get_fallback_models, cacheAfter := cache,
                    request := some req, cacheRead := true }
                else
                  { result := .ok models,
                    cacheAfter := some { models := models, fetched_at := now },
                    request := some req, cacheRead := true }

end OpenAI

namespace SummaryEngine

/-- Lifecycle errors surfaced by the model manager. -/
inductive ModelError where
  | UnknownModel
  | AlreadyDownloading
  | NotDownloading
deriving Repr, DecidableEq

/-- Modelled from the spec: the check-and-register critical section of
`ModelManager.download_model` (the `model_manager.rs` implementation is
not among the reviewed source files; only its caller
`builtin_ai_download_model` in `summary_engine/commands.rs` is).  Per
the spec, the registry of in-flight DownloadTasks is checked and updated
under one exclusive lock: if a task for the name is already registered
the call fails with AlreadyDownloading, otherwise the task is
registered before the lock is released. -/
def try_register_download (registry : List String) (name : String) :
    Except ModelError (List String) :=
  if name ∈ registry then .error .AlreadyDownloading
  else .ok (name :: registry)

end SummaryEngine

example : Anthropic.is_chat_model "claude-sonnet-4-5-20250929" = true := by decide

example : Anthropic.is_chat_model "GPT-4" = false := by decide

example :
    (Anthropic.get_anthropic_models none false none 0 .transportError).result =
      .ok Anthropic.get_fallback_models := rfl

example : Groq.is_chat_model "llama-3.3-70b-versatile" = true := by decide

example : Groq.is_chat_model "whisper-large-v3" = false := by decide

example : OpenAI.is_chat_model "gpt-4-0125-Preview" = true := by decide

example : OpenAI.is_chat_model "text-embedding-3-small" = false := by decide

/-- C1: for every provider adapter, a credential that is absent or blank
after trimming yields Ok of the non-empty static fallback list, with no
HTTP request and no cache read or write. -/
theorem C1_no_credential_fallback
    (api_key : Option String)
    (hk : api_key = none ∨ ∃ s, api_key = some s ∧ rust_trim s = "")
    (pa pg po : Bool)
    (ca : Option (CacheEntry Anthropic.AnthropicModel)) (na : Nat)
    (ha : HttpOutcome Anthropic.AnthropicApiResponse)
    (cg : Option (CacheEntry Groq.GroqModel)) (ng : Nat)
    (hg : HttpOutcome Groq.GroqApiResponse)
    (co : Option (CacheEntry OpenAI.OpenAIModel)) (nn : Nat)
    (ho : HttpOutcome OpenAI.OpenAIApiResponse) :
    ((Anthropic.get_anthropic_models api_key pa ca na ha).result =
        .ok Anthropic.get_fallback_models ∧
      (Anthropic.get_anthropic_models api_key pa ca na ha).request = none ∧
      (Anthropic.get_anthropic_models api_key pa ca na ha).cacheRead = false ∧
      (Anthropic.get_anthropic_models api_key pa ca na ha).cacheAfter = ca ∧
      Anthropic.get_fallback_models ≠ []) ∧
    ((Groq.get_groq_models api_key pg cg ng hg).result =
        .ok Groq.get_fallback_models ∧
      (Groq.get_groq_models api_key pg cg ng hg).request = none ∧
      (Groq.get_groq_models api_key pg cg ng hg).cacheRead = false ∧
      (Groq.get_groq_models api_key pg cg ng hg).cacheAfter = cg ∧
      Groq.get_fallback_models ≠ []) ∧
    ((OpenAI.get_openai_models api_key po co nn ho).result =
        .ok OpenAI.get_fallback_models ∧
      (OpenAI.get_openai_models api_key po co nn ho).request = none ∧
      (OpenAI.get_openai_models api_key po co nn ho).cacheRead = false ∧
      (OpenAI.get_openai_models api_key po co nn ho).cacheAfter = co ∧
      OpenAI.get_fallback_models ≠ []) := by
  rcases hk with h | ⟨s, hs, ht⟩
  · subst h
    simp [Anthropic.get_anthropic_models, Groq.get_groq_models,
      OpenAI.get_openai_models, Anthropic.get_fallback_models,
      Groq.get_fallback_models, OpenAI.get_fallback_models,
      Anthropic.FALLBACK_MODELS, Groq.FALLBACK_MODELS, OpenAI.FALLBACK_MODELS]
  · subst hs
    simp [Anthropic.get_anthropic_models, Groq.get_groq_models,
      OpenAI.get_openai_models, ht, Anthropic.get_fallback_models,
      Groq.get_fallback_models, OpenAI.get_fallback_models,
      Anthropic.FALLBACK_MODELS, Groq.FALLBACK_MODELS, OpenAI.FALLBACK_MODELS]

/-- C1 witness at the concrete blank credential "  ". -/
theorem C1_no_credential_fallback_witness :
    (Anthropic.get_anthropic_models (some "  ") false none 7
        .transportError).result = .ok Anthropic.get_fallback_models :=
  (C1_no_credential_fallback (some "  ")
    (Or.inr ⟨"  ", rfl, by decide⟩) false false false none 7
    .transportError none 7 .transportError none 7 .transportError).1.1
/-- Filtered chat-model list the Anthropic adapter computes from a parsed
response (the filter-and-map of the source, named for use in statements). -/
def Anthropic.filtered_models (r : Anthropic.AnthropicApiResponse) :
    List Anthropic.AnthropicModel :=
  (r.data.filter (fun m => Anthropic.is_chat_model m.id)).map
    (fun m => { id := m.id, display_name := m.display_name })

/-- Filtered chat-model list the Groq adapter computes from a parsed response. -/
def Groq.filtered_models (r : Groq.GroqApiResponse) : List Groq.GroqModel :=
  (r.data.filter (fun m => Groq.is_chat_model m.id)).map
    (fun m => { id := m.id, owned_by := m.owned_by })

/-- Filtered chat-model list the OpenAI adapter computes from a parsed response. -/
def OpenAI.filtered_models (r : OpenAI.OpenAIApiResponse) : List OpenAI.OpenAIModel :=
  (r.data.filter (fun m => OpenAI.is_chat_model m.id)).map
    (fun m => { id := m.id })

/-- C4: with a usable credential and a cache entry younger than the TTL,
every adapter returns exactly the cached list, issues no HTTP request,
and leaves the cache unchanged. -/
theorem C4_fresh_cache_serves
    (s : String) (hkey : rust_trim s ≠ "")
    (ea : CacheEntry Anthropic.AnthropicModel) (na : Nat)
    (hfa : na - ea.fetched_at < CACHE_TTL_SECS)
    (ha : HttpOutcome Anthropic.AnthropicApiResponse)
    (eg : CacheEntry Groq.GroqModel) (ng : Nat)
    (hfg : ng - eg.fetched_at < CACHE_TTL_SECS)
    (hg : HttpOutcome Groq.GroqApiResponse)
    (eo : CacheEntry OpenAI.OpenAIModel) (nn : Nat)
    (hfo : nn - eo.fetched_at < CACHE_TTL_SECS)
    (ho : HttpOutcome OpenAI.OpenAIApiResponse) :
    ((Anthropic.get_anthropic_models (some s) false (some ea) na ha).result =
        .ok ea.models ∧
      (Anthropic.get_anthropic_models (some s) false (some ea) na ha).request = none ∧
      (Anthropic.get_anthropic_models (some s) false (some ea) na ha).cacheAfter =
        some ea) ∧
    ((Groq.get_groq_models (some s) false (some eg) ng hg).result = .ok eg.models ∧
      (Groq.get_groq_models (some s) false (some eg) ng hg).request = none ∧
      (Groq.get_groq_models (some s) false (some eg) ng hg).cacheAfter = some eg) ∧
    ((OpenAI.get_openai_models (some s) false (some eo) nn ho).result =
        .ok eo.models ∧
      (OpenAI.get_openai_models (some s) false (some eo) nn ho).request = none ∧
      (OpenAI.get_openai_models (some s) false (some eo) nn ho).cacheAfter =
        some eo) := by
  refine ⟨?_, ?_, ?_⟩
  · simp [Anthropic.get_anthropic_models, hkey, hfa]
  · simp [Groq.get_groq_models, hkey, hfg]
  · simp [OpenAI.get_openai_models, hkey, hfo]

/-- C4 witness: a concrete fresh cache entry is served unchanged. -/
theorem C4_fresh_cache_serves_witness :
    (Anthropic.get_anthropic_models (some "sk-ok") false
        (some ⟨[⟨"claude-3-haiku", none⟩], 10⟩) 100 .transportError).result =
      .ok [⟨"claude-3-haiku", none⟩] :=
  (C4_fresh_cache_serves "sk-ok" (by decide)
    ⟨[⟨"claude-3-haiku", none⟩], 10⟩ 100 (by decide) .transportError
    ⟨[⟨"llama-3.3-70b-versatile", none⟩], 10⟩ 100 (by decide) .transportError
    ⟨[⟨"gpt-4o"⟩], 10⟩ 100 (by decide) .transportError).1.1

/-- C2: with a usable credential, a cache miss, a 2xx parsed response and a
non-empty chat-filtered list, every adapter returns exactly the filtered
list in response order and writes it to the cache stamped with the
current time. -/
theorem C2_success_returns_filtered_and_caches
    (s : String) (hkey : rust_trim s ≠ "")
    (ca : Option (CacheEntry Anthropic.AnthropicModel)) (na : Nat)
    (hma : ca = none ∨ ∃ e, ca = some e ∧ CACHE_TTL_SECS ≤ na - e.fetched_at)
    (sta : Nat) (hsa : status_is_success sta = true)
    (ra : Anthropic.AnthropicApiResponse)
    (hna : ∃ m ∈ ra.data, Anthropic.is_chat_model m.id = true)
    (cg : Option (CacheEntry Groq.GroqModel)) (ng : Nat)
    (hmg : cg = none ∨ ∃ e, cg = some e ∧ CACHE_TTL_SECS ≤ ng - e.fetched_at)
    (stg : Nat) (hsg : status_is_success stg = true)
    (rg : Groq.GroqApiResponse)
    (hng : ∃ m ∈ rg.data, Groq.is_chat_model m.id = true)
    (co : Option (CacheEntry OpenAI.OpenAIModel)) (nn : Nat)
    (hmo : co = none ∨ ∃ e, co = some e ∧ CACHE_TTL_SECS ≤ nn - e.fetched_at)
    (sto : Nat) (hso : status_is_success sto = true)
    (ro : OpenAI.OpenAIApiResponse)
    (hno : ∃ m ∈ ro.data, OpenAI.is_chat_model m.id = true) :
    ((Anthropic.get_anthropic_models (some s) false ca na
          (.response sta (some ra))).result = .ok (Anthropic.filtered_models ra) ∧
      (Anthropic.get_anthropic_models (some s) false ca na
          (.response sta (some ra))).cacheAfter =
        some { models := Anthropic.filtered_models ra, fetched_at := na }) ∧
    ((Groq.get_groq_models (some s) false cg ng
          (.response stg (some rg))).result = .ok (Groq.filtered_models rg) ∧
      (Groq.get_groq_models (some s) false cg ng
          (.response stg (some rg))).cacheAfter =
        some { models := Groq.filtered_models rg, fetched_at := ng }) ∧
    ((OpenAI.get_openai_models (some s) false co nn
          (.response sto (some ro))).result = .ok (OpenAI.filtered_models ro) ∧
      (OpenAI.get_openai_models (some s) false co nn
          (.response sto (some ro))).cacheAfter =
        some { models := OpenAI.filtered_models ro, fetched_at := nn }) := by
  refine ⟨?_, ?_, ?_⟩
  · obtain ⟨m, hm, hchat⟩ := hna
    have hnall : ¬ ∀ a ∈ ra.data, Anthropic.is_chat_model a.id = false := by
      intro hall
      exact absurd (hall m hm) (by simp [hchat])
    rcases hma with h | ⟨e, he, hstale⟩
    · subst h
      simp [Anthropic.get_anthropic_models, Anthropic.filtered_models, hkey, hsa, hnall]
    · subst he
      simp [Anthropic.get_anthropic_models, Anthropic.filtered_models, hkey, hsa, hnall,
        decide_eq_false (Nat.not_lt.mpr hstale)]
  · obtain ⟨m, hm, hchat⟩ := hng
    have hnall : ¬ ∀ a ∈ rg.data, Groq.is_chat_model a.id = false := by
      intro hall
      exact absurd (hall m hm) (by simp [hchat])
    rcases hmg with h | ⟨e, he, hstale⟩
    · subst h
      simp [Groq.get_groq_models, Groq.filtered_models, hkey, hsg, hnall]
    · subst he
      simp [Groq.get_groq_models, Groq.filtered_models, hkey, hsg, hnall,
        decide_eq_false (Nat.not_lt.mpr hstale)]
  · obtain ⟨m, hm, hchat⟩ := hno
    have hnall : ¬ ∀ a ∈ ro.data, OpenAI.is_chat_model a.id = false := by
      intro hall
      exact absurd (hall m hm) (by simp [hchat])
    rcases hmo with h | ⟨e, he, hstale⟩
    · subst h
      simp [OpenAI.get_openai_models, OpenAI.filtered_models, hkey, hso, hnall]
    · subst he
      simp [OpenAI.get_openai_models, OpenAI.filtered_models, hkey, hso, hnall,
        decide_eq_false (Nat.not_lt.mpr hstale)]

/-- C2 witness: the Anthropic scenario of the spec, with credential
"sk-ok" and an HTTP 200 body holding one Claude model. -/
theorem C2_success_returns_filtered_and_caches_witness :
    (Anthropic.get_anthropic_models (some "sk-ok") false none 0
        (.response 200 (some ⟨[⟨"claude-sonnet-4-5-20250929", some "Sonnet",
          none⟩]⟩))).result =
      .ok [⟨"claude-sonnet-4-5-20250929", some "Sonnet"⟩] ∧
    (Anthropic.get_anthropic_models (some "sk-ok") false none 0
        (.response 200 (some ⟨[⟨"claude-sonnet-4-5-20250929", some "Sonnet",
          none⟩]⟩))).cacheAfter =
      some ⟨[⟨"claude-sonnet-4-5-20250929", some "Sonnet"⟩], 0⟩ :=
  (C2_success_returns_filtered_and_caches "sk-ok" (by decide)
    none 0 (Or.inl rfl) 200 (by decide)
    ⟨[⟨"claude-sonnet-4-5-20250929", some "Sonnet", none⟩]⟩ (by decide)
    none 0 (Or.inl rfl) 200 (by decide)
    ⟨[⟨"llama-3.3-70b-versatile", none, "model"⟩]⟩ (by decide)
    none 0 (Or.inl rfl) 200 (by decide)
    ⟨[⟨"gpt-4o", "model", "openai"⟩]⟩ (by decide)).1
/-- C3: with a usable credential on a cache miss, a transport error, a
non-2xx status, an unparsable body, or an empty chat-filtered list all
yield Ok of the static fallback list and leave the cache untouched. -/
theorem C3_fetch_failure_falls_back
    (s : String) (hkey : rust_trim s ≠ "")
    (ca : Option (CacheEntry Anthropic.AnthropicModel)) (na : Nat)
    (hma : ca = none ∨ ∃ e, ca = some e ∧ CACHE_TTL_SECS ≤ na - e.fetched_at)
    (ha : HttpOutcome Anthropic.AnthropicApiResponse)
    (hfa : ha = .transportError ∨
      (∃ st p, ha = .response st p ∧ status_is_success st = false) ∨
      (∃ st, ha = .response st none ∧ status_is_success st = true) ∨
      (∃ st r, ha = .response st (some r) ∧ status_is_success st = true ∧
        Anthropic.filtered_models r = []))
    (cg : Option (CacheEntry Groq.GroqModel)) (ng : Nat)
    (hmg : cg = none ∨ ∃ e, cg = some e ∧ CACHE_TTL_SECS ≤ ng - e.fetched_at)
    (hg : HttpOutcome Groq.GroqApiResponse)
    (hfg : hg = .transportError ∨
      (∃ st p, hg = .response st p ∧ status_is_success st = false) ∨
      (∃ st, hg = .response st none ∧ status_is_success st = true) ∨
      (∃ st r, hg = .response st (some r) ∧ status_is_success st = true ∧
        Groq.filtered_models r = []))
    (co : Option (CacheEntry OpenAI.OpenAIModel)) (nn : Nat)
    (hmo : co = none ∨ ∃ e, co = some e ∧ CACHE_TTL_SECS ≤ nn - e.fetched_at)
    (ho : HttpOutcome OpenAI.OpenAIApiResponse)
    (hfo : ho = .transportError ∨
      (∃ st p, ho = .response st p ∧ status_is_success st = false) ∨
      (∃ st, ho = .response st none ∧ status_is_success st = true) ∨
      (∃ st r, ho = .response st (some r) ∧ status_is_success st = true ∧
        OpenAI.filtered_models r = [])) :
    ((Anthropic.get_anthropic_models (some s) false ca na ha).result =
        .ok Anthropic.get_fallback_models ∧
      (Anthropic.get_anthropic_models (some s) false ca na ha).cacheAfter = ca) ∧
    ((Groq.get_groq_models (some s) false cg ng hg).result =
        .ok Groq.get_fallback_models ∧
      (Groq.get_groq_models (some s) false cg ng hg).cacheAfter = cg) ∧
    ((OpenAI.get_openai_models (some s) false co nn ho).result =
        .ok OpenAI.get_fallback_models ∧
      (OpenAI.get_openai_models (some s) false co nn ho).cacheAfter = co) := by
  refine ⟨?_, ?_, ?_⟩
  · rcases hma with hc | ⟨e, hc, hstale⟩
    · subst hc
      rcases hfa with h | ⟨st, p, h, hbad⟩ | ⟨st, h, hok⟩ | ⟨st, r, h, hok, hempty⟩
      · subst h
        simp [Anthropic.get_anthropic_models, hkey]
      · subst h
        simp [Anthropic.get_anthropic_models, hkey, hbad]
      · subst h
        simp [Anthropic.get_anthropic_models, hkey, hok]
      · subst h
        have hall : ∀ a ∈ r.data, Anthropic.is_chat_model a.id = false := by
          simpa [Anthropic.filtered_models] using hempty
        simp [Anthropic.get_anthropic_models, hkey, hok]
        constructor <;> rw [if_pos hall]
    · subst hc
      have hd := decide_eq_false (Nat.not_lt.mpr hstale)
      rcases hfa with h | ⟨st, p, h, hbad⟩ | ⟨st, h, hok⟩ | ⟨st, r, h, hok, hempty⟩
      · subst h
        simp [Anthropic.get_anthropic_models, hkey, hd]
      · subst h
        simp [Anthropic.get_anthropic_models, hkey, hd, hbad]
      · subst h
        simp [Anthropic.get_anthropic_models, hkey, hd, hok]
      · subst h
        have hall : ∀ a ∈ r.data, Anthropic.is_chat_model a.id = false := by
          simpa [Anthropic.filtered_models] using hempty
        simp [Anthropic.get_anthropic_models, hkey, hd, hok]
        constructor <;> rw [if_pos hall]
  · rcases hmg with hc | ⟨e, hc, hstale⟩
    · subst hc
      rcases hfg with h | ⟨st, p, h, hbad⟩ | ⟨st, h, hok⟩ | ⟨st, r, h, hok, hempty⟩
      · subst h
        simp [Groq.get_groq_models, hkey]
      · subst h
        simp [Groq.get_groq_models, hkey, hbad]
      · subst h
        simp [Groq.get_groq_models, hkey, hok]
      · subst h
        have hall : ∀ a ∈ r.data, Groq.is_chat_model a.id = false := by
          simpa [Groq.filtered_models] using hempty
        simp [Groq.get_groq_models, hkey, hok]
        constructor <;> rw [if_pos hall]
    · subst hc
      have hd := decide_eq_false (Nat.not_lt.mpr hstale)
      rcases hfg with h | ⟨st, p, h, hbad⟩ | ⟨st, h, hok⟩ | ⟨st, r, h, hok, hempty⟩
      · subst h
        simp [Groq.get_groq_models, hkey, hd]
      · subst h
        simp [Groq.get_groq_models, hkey, hd, hbad]
      · subst h
        simp [Groq.get_groq_models, hkey, hd, hok]
      · subst h
        have hall : ∀ a ∈ r.data, Groq.is_chat_model a.id = false := by
          simpa [Groq.filtered_models] using hempty
        simp [Groq.get_groq_models, hkey, hd, hok]
        constructor <;> rw [if_pos hall]
  · rcases hmo with hc | ⟨e, hc, hstale⟩
    · subst hc
      rcases hfo with h | ⟨st, p, h, hbad⟩ | ⟨st, h, hok⟩ | ⟨st, r, h, hok, hempty⟩
      · subst h
        simp [OpenAI.get_openai_models, hkey]
      · subst h
        simp [OpenAI.get_openai_models, hkey, hbad]
      · subst h
        simp [OpenAI.get_openai_models, hkey, hok]
      · subst h
        have hall : ∀ a ∈ r.data, OpenAI.is_chat_model a.id = false := by
          simpa [OpenAI.filtered_models] using hempty
        simp [OpenAI.get_openai_models, hkey, hok]
        constructor <;> rw [if_pos hall]
    · subst hc
      have hd := decide_eq_false (Nat.not_lt.mpr hstale)
      rcases hfo with h | ⟨st, p, h, hbad⟩ | ⟨st, h, hok⟩ | ⟨st, r, h, hok, hempty⟩
      · subst h
        simp [OpenAI.get_openai_models, hkey, hd]
      · subst h
        simp [OpenAI.get_openai_models, hkey, hd, hbad]
      · subst h
        simp [OpenAI.get_openai_models, hkey, hd, hok]
      · subst h
        have hall : ∀ a ∈ r.data, OpenAI.is_chat_model a.id = false := by
          simpa [OpenAI.filtered_models] using hempty
        simp [OpenAI.get_openai_models, hkey, hd, hok]
        constructor <;> rw [if_pos hall]

/-- C3 witness: a malformed body (parse failure on HTTP 200) on an empty
cache yields the fallback list and does not populate the cache. -/
theorem C3_fetch_failure_falls_back_witness :
    (Anthropic.get_anthropic_models (some "sk-ok") false none 0
        (.response 200 none)).result = .ok Anthropic.get_fallback_models ∧
    (Anthropic.get_anthropic_models (some "sk-ok") false none 0
        (.response 200 none)).cacheAfter = none :=
  (C3_fetch_failure_falls_back "sk-ok" (by decide)
    none 0 (Or.inl rfl) (.response 200 none)
    (Or.inr (Or.inr (Or.inl ⟨200, rfl, by decide⟩)))
    none 0 (Or.inl rfl) .transportError (Or.inl rfl)
    none 0 (Or.inl rfl) (.response 500 (some ⟨[]⟩))
    (Or.inr (Or.inl ⟨500, some ⟨[]⟩, rfl, by decide⟩))).1
/-- C7: on a cache miss with a usable credential, each adapter issues the
single GET request of its provider: fixed endpoint, required auth
headers built from the trimmed key, 5-second timeout. -/
theorem C7_request_shape
    (s : String) (hkey : rust_trim s ≠ "")
    (ca : Option (CacheEntry Anthropic.AnthropicModel)) (na : Nat)
    (hma : ca = none ∨ ∃ e, ca = some e ∧ CACHE_TTL_SECS ≤ na - e.fetched_at)
    (ha : HttpOutcome Anthropic.AnthropicApiResponse)
    (cg : Option (CacheEntry Groq.GroqModel)) (ng : Nat)
    (hmg : cg = none ∨ ∃ e, cg = some e ∧ CACHE_TTL_SECS ≤ ng - e.fetched_at)
    (hg : HttpOutcome Groq.GroqApiResponse)
    (co : Option (CacheEntry OpenAI.OpenAIModel)) (nn : Nat)
    (hmo : co = none ∨ ∃ e, co = some e ∧ CACHE_TTL_SECS ≤ nn - e.fetched_at)
    (ho : HttpOutcome OpenAI.OpenAIApiResponse) :
    (Anthropic.get_anthropic_models (some s) false ca na ha).request =
      some ⟨"https://api.anthropic.com/v1/models",
        [("x-api-key", rust_trim s), ("anthropic-version", "2023-06-01")], 5⟩ ∧
    (Groq.get_groq_models (some s) false cg ng hg).request =
      some ⟨"https://api.groq.com/openai/v1/models",
        [("Authorization", "Bearer " ++ rust_trim s)], 5⟩ ∧
    (OpenAI.get_openai_models (some s) false co nn ho).request =
      some ⟨"https://api.openai.com/v1/models",
        [("Authorization", "Bearer " ++ rust_trim s)], 5⟩ := by
  refine ⟨?_, ?_, ?_⟩
  · rcases hma with hc | ⟨e, hc, hstale⟩ <;> subst hc
    · cases ha with
      | transportError => simp [Anthropic.get_anthropic_models, hkey]
      | response st p =>
        rcases p with _ | r <;>
          simp [Anthropic.get_anthropic_models, hkey,
            apply_ite AdapterOutcome.request]
    · have hd := decide_eq_false (Nat.not_lt.mpr hstale)
      cases ha with
      | transportError => simp [Anthropic.get_anthropic_models, hkey, hd]
      | response st p =>
        rcases p with _ | r <;>
          simp [Anthropic.get_anthropic_models, hkey, hd,
            apply_ite AdapterOutcome.request]
  · rcases hmg with hc | ⟨e, hc, hstale⟩ <;> subst hc
    · cases hg with
      | transportError => simp [Groq.get_groq_models, hkey]
      | response st p =>
        rcases p with _ | r <;>
          simp [Groq.get_groq_models, hkey,
            apply_ite AdapterOutcome.request]
    · have hd := decide_eq_false (Nat.not_lt.mpr hstale)
      cases hg with
      | transportError => simp [Groq.get_groq_models, hkey, hd]
      | response st p =>
        rcases p with _ | r <;>
          simp [Groq.get_groq_models, hkey, hd,
            apply_ite AdapterOutcome.request]
  · rcases hmo with hc | ⟨e, hc, hstale⟩ <;> subst hc
    · cases ho with
      | transportError => simp [OpenAI.get_openai_models, hkey]
      | response st p =>
        rcases p with _ | r <;>
          simp [OpenAI.get_openai_models, hkey,
            apply_ite AdapterOutcome.request]
    · have hd := decide_eq_false (Nat.not_lt.mpr hstale)
      cases ho with
      | transportError => simp [OpenAI.get_openai_models, hkey, hd]
      | response st p =>
        rcases p with _ | r <;>
          simp [OpenAI.get_openai_models, hkey, hd,
            apply_ite AdapterOutcome.request]

/-- C7 witness at a concrete key, empty cache and transport error. -/
theorem C7_request_shape_witness :
    (Anthropic.get_anthropic_models (some "sk-ok") false none 0
        .transportError).request =
      some ⟨"https://api.anthropic.com/v1/models",
        [("x-api-key", "sk-ok"), ("anthropic-version", "2023-06-01")], 5⟩ := by
  have h := (C7_request_shape "sk-ok" (by decide)
    none 0 (Or.inl rfl) .transportError
    none 0 (Or.inl rfl) .transportError
    none 0 (Or.inl rfl) .transportError).1
  simpa using h
/-- Helper: the Anthropic adapter leaves the cache unchanged or replaces
it with an entry stamped with the current time. -/
theorem anthropic_cacheAfter_cases (api_key : Option String) (p : Bool)
    (ca : Option (CacheEntry Anthropic.AnthropicModel)) (na : Nat)
    (ha : HttpOutcome Anthropic.AnthropicApiResponse) :
    (Anthropic.get_anthropic_models api_key p ca na ha).cacheAfter = ca ∨
    ∃ ms, (Anthropic.get_anthropic_models api_key p ca na ha).cacheAfter =
      some ⟨ms, na⟩ := by
  unfold Anthropic.get_anthropic_models
  repeat'
    first
    | (left; rfl)
    | (right; exact ⟨_, rfl⟩)
    | split
    | dsimp only

/-- Helper: the Groq adapter leaves the cache unchanged or replaces it
with an entry stamped with the current time. -/
theorem groq_cacheAfter_cases (api_key : Option String) (p : Bool)
    (cg : Option (CacheEntry Groq.GroqModel)) (ng : Nat)
    (hg : HttpOutcome Groq.GroqApiResponse) :
    (Groq.get_groq_models api_key p cg ng hg).cacheAfter = cg ∨
    ∃ ms, (Groq.get_groq_models api_key p cg ng hg).cacheAfter = some ⟨ms, ng⟩ := by
  unfold Groq.get_groq_models
  repeat'
    first
    | (left; rfl)
    | (right; exact ⟨_, rfl⟩)
    | split
    | dsimp only

/-- Helper: the OpenAI adapter leaves the cache unchanged or replaces it
with an entry stamped with the current time. -/
theorem openai_cacheAfter_cases (api_key : Option String) (p : Bool)
    (co : Option (CacheEntry OpenAI.OpenAIModel)) (nn : Nat)
    (ho : HttpOutcome OpenAI.OpenAIApiResponse) :
    (OpenAI.get_openai_models api_key p co nn ho).cacheAfter = co ∨
    ∃ ms, (OpenAI.get_openai_models api_key p co nn ho).cacheAfter = some ⟨ms, nn⟩ := by
  unfold OpenAI.get_openai_models
  repeat'
    first
    | (left; rfl)
    | (right; exact ⟨_, rfl⟩)
    | split
    | dsimp only

/-- C8: across any adapter call, a cache entry written in the past is only
ever replaced by one with a greater-or-equal fetch timestamp, so
fetched_at is monotonically non-decreasing across replacements. -/
theorem C8_fetched_at_monotone
    (api_key : Option String) (p : Bool)
    (ea : CacheEntry Anthropic.AnthropicModel) (na : Nat)
    (hpa : ea.fetched_at ≤ na)
    (ha : HttpOutcome Anthropic.AnthropicApiResponse)
    (eg : CacheEntry Groq.GroqModel) (ng : Nat)
    (hpg : eg.fetched_at ≤ ng)
    (hg : HttpOutcome Groq.GroqApiResponse)
    (eo : CacheEntry OpenAI.OpenAIModel) (nn : Nat)
    (hpo : eo.fetched_at ≤ nn)
    (ho : HttpOutcome OpenAI.OpenAIApiResponse) :
    (∀ e2, (Anthropic.get_anthropic_models api_key p (some ea) na ha).cacheAfter =
      some e2 → ea.fetched_at ≤ e2.fetched_at) ∧
    (∀ e2, (Groq.get_groq_models api_key p (some eg) ng hg).cacheAfter =
      some e2 → eg.fetched_at ≤ e2.fetched_at) ∧
    (∀ e2, (OpenAI.get_openai_models api_key p (some eo) nn ho).cacheAfter =
      some e2 → eo.fetched_at ≤ e2.fetched_at) := by
  refine ⟨?_, ?_, ?_⟩
  · intro e2 h2
    rcases anthropic_cacheAfter_cases api_key p (some ea) na ha with h | ⟨ms, h⟩
    · rw [h2] at h
      cases Option.some.inj h
      exact le_refl _
    · rw [h2] at h
      cases Option.some.inj h
      exact hpa
  · intro e2 h2
    rcases groq_cacheAfter_cases api_key p (some eg) ng hg with h | ⟨ms, h⟩
    · rw [h2] at h
      cases Option.some.inj h
      exact le_refl _
    · rw [h2] at h
      cases Option.some.inj h
      exact hpg
  · intro e2 h2
    rcases openai_cacheAfter_cases api_key p (some eo) nn ho with h | ⟨ms, h⟩
    · rw [h2] at h
      cases Option.some.inj h
      exact le_refl _
    · rw [h2] at h
      cases Option.some.inj h
      exact hpo

/-- C8 witness: a successful refresh at time 100 over an entry fetched at
time 10 stores timestamp 100 which is not below 10. -/
theorem C8_fetched_at_monotone_witness :
    (Anthropic.get_anthropic_models (some "sk-ok") false
        (some ⟨[⟨"claude-3-haiku", none⟩], 10⟩) 400
        (.response 200 (some ⟨[⟨"claude-sonnet-4-5-20250929", some "Sonnet",
          none⟩]⟩))).cacheAfter =
      some ⟨[⟨"claude-sonnet-4-5-20250929", some "Sonnet"⟩], 400⟩ ∧
    (10 : Nat) ≤ 400 :=
  ⟨rfl, (C8_fetched_at_monotone (some "sk-ok") false
    ⟨[⟨"claude-3-haiku", none⟩], 10⟩ 400 (by decide)
    (.response 200 (some ⟨[⟨"claude-sonnet-4-5-20250929", some "Sonnet", none⟩]⟩))
    ⟨[⟨"llama-3.3-70b-versatile", none⟩], 10⟩ 400 (by decide) .transportError
    ⟨[⟨"gpt-4o"⟩], 10⟩ 400 (by decide) .transportError).1
    ⟨[⟨"claude-sonnet-4-5-20250929", some "Sonnet"⟩], 400⟩ rfl⟩
/-- C5 counterexample: with a usable credential and a poisoned cache
lock, the adapter propagates the lock error as Err, so the claim that
the command never returns Err for any cache-lock outcome is false. -/
theorem C5_poisoned_lock_returns_err :
    (Anthropic.get_anthropic_models (some "sk-ok") true none 0
        .transportError).result = .error POISONED_LOCK_MSG := rfl

/-- C5 amended: as long as the cache lock is healthy, every adapter call
returns Ok for every credential, cache state and transport outcome;
only a poisoned cache lock can surface as Err. -/
theorem C5_healthy_lock_never_err
    (api_key : Option String)
    (ca : Option (CacheEntry Anthropic.AnthropicModel)) (na : Nat)
    (ha : HttpOutcome Anthropic.AnthropicApiResponse)
    (cg : Option (CacheEntry Groq.GroqModel)) (ng : Nat)
    (hg : HttpOutcome Groq.GroqApiResponse)
    (co : Option (CacheEntry OpenAI.OpenAIModel)) (nn : Nat)
    (ho : HttpOutcome OpenAI.OpenAIApiResponse) :
    (∃ ms, (Anthropic.get_anthropic_models api_key false ca na ha).result =
      .ok ms) ∧
    (∃ ms, (Groq.get_groq_models api_key false cg ng hg).result = .ok ms) ∧
    (∃ ms, (OpenAI.get_openai_models api_key false co nn ho).result = .ok ms) := by
  refine ⟨?_, ?_, ?_⟩
  · unfold Anthropic.get_anthropic_models
    repeat'
      first
      | exact ⟨_, rfl⟩
      | split
      | dsimp only
      | simp_all
  · unfold Groq.get_groq_models
    repeat'
      first
      | exact ⟨_, rfl⟩
      | split
      | dsimp only
      | simp_all
  · unfold OpenAI.get_openai_models
    repeat'
      first
      | exact ⟨_, rfl⟩
      | split
      | dsimp only
      | simp_all

/-- C6: single-flight registration. Racing registrations serialize
through one critical section; in either serialization the first
check-and-register succeeds, the second fails with AlreadyDownloading,
and the at-most-one-task-per-name invariant is preserved. -/
theorem C6_single_flight_registration
    (reg : List String) (name : String)
    (hinv : ∀ m, reg.count m ≤ 1) (hnew : name ∉ reg) :
    ∃ reg2, SummaryEngine.try_register_download reg name = .ok reg2 ∧
      SummaryEngine.try_register_download reg2 name =
        .error .AlreadyDownloading ∧
      reg2.count name = 1 ∧ (∀ m, reg2.count m ≤ 1) := by
  refine ⟨name :: reg, ?_, ?_, ?_, ?_⟩
  · simp [SummaryEngine.try_register_download, hnew]
  · simp [SummaryEngine.try_register_download]
  · simp [List.count_cons_self, List.count_eq_zero.mpr hnew]
  · intro m
    rcases eq_or_ne m name with hm | hm
    · subst hm
      simp [List.count_cons_self, List.count_eq_zero.mpr hnew]
    · have h := hinv m
      simp [List.count_cons, hm]
      omega

/-- C6 witness: the two serializations of a race on one model name. -/
theorem C6_single_flight_registration_witness :
    SummaryEngine.try_register_download [] "gemma3:1b" = .ok ["gemma3:1b"] ∧
    SummaryEngine.try_register_download ["gemma3:1b"] "gemma3:1b" =
      .error .AlreadyDownloading := by
  obtain ⟨reg2, h1, h2, -, -⟩ :=
    C6_single_flight_registration [] "gemma3:1b" (by simp) (by simp)
  have h0 : SummaryEngine.try_register_download [] "gemma3:1b" =
      .ok ["gemma3:1b"] := rfl
  rw [h0] at h1
  injection h1 with h1e
  subst h1e
  exact ⟨h0, h2⟩
/-- Helper: a character outside the ASCII uppercase range is fixed by
Char.toLower. -/
theorem char_toLower_of_not_upper (d : Char)
    (hd : ¬(d.toNat ≥ 65 ∧ d.toNat ≤ 90)) : Char.toLower d = d := by
  unfold Char.toLower
  simp only
  rw [if_neg hd]

/-- Helper: ASCII lowercasing of a character is idempotent. -/
theorem char_toLower_idem (c : Char) :
    Char.toLower (Char.toLower c) = Char.toLower c := by
  by_cases h : c.toNat ≥ 65 ∧ c.toNat ≤ 90
  · have h1 : Char.toLower c = Char.ofNat (c.toNat + 32) := by
      unfold Char.toLower
      simp only
      rw [if_pos h]
    have hv : Nat.isValidChar (c.toNat + 32) := Or.inl (by omega)
    have ht : (Char.ofNat (c.toNat + 32)).toNat = c.toNat + 32 := by
      unfold Char.ofNat
      rw [dif_pos hv]
      simp [Char.ofNatAux, Char.toNat, UInt32.toNat]
    rw [h1]
    exact char_toLower_of_not_upper _ (by rw [ht]; omega)
  · rw [char_toLower_of_not_upper c h]
    exact char_toLower_of_not_upper c h

/-- Helper: the embedded to_lowercase is idempotent. -/
theorem to_lowercase_idem (s : String) :
    to_lowercase (to_lowercase s) = to_lowercase s := by
  unfold to_lowercase
  simp only [List.map_map]
  exact congrArg String.mk
    (List.map_congr_left (fun a _ => char_toLower_idem a))
/-- C9: each provider's chat-model filter is case-insensitive: two
strings with the same lowercasing get the same verdict, and in
particular a string and its lowercase form get the same verdict. -/
theorem C9_chat_filter_case_insensitive (s t : String)
    (hvar : to_lowercase s = to_lowercase t) :
    (Anthropic.is_chat_model s = Anthropic.is_chat_model t ∧
      Anthropic.is_chat_model s = Anthropic.is_chat_model (to_lowercase s)) ∧
    (Groq.is_chat_model s = Groq.is_chat_model t ∧
      Groq.is_chat_model s = Groq.is_chat_model (to_lowercase s)) ∧
    (OpenAI.is_chat_model s = OpenAI.is_chat_model t ∧
      OpenAI.is_chat_model s = OpenAI.is_chat_model (to_lowercase s)) := by
  refine ⟨⟨?_, ?_⟩, ⟨?_, ?_⟩, ⟨?_, ?_⟩⟩
  · simp only [Anthropic.is_chat_model]
    rw [hvar]
  · simp only [Anthropic.is_chat_model]
    rw [to_lowercase_idem]
  · simp only [Groq.is_chat_model]
    rw [hvar]
  · simp only [Groq.is_chat_model]
    rw [to_lowercase_idem]
  · simp only [OpenAI.is_chat_model]
    rw [hvar]
  · simp only [OpenAI.is_chat_model]
    rw [to_lowercase_idem]

/-- C9 witness: an uppercase variant gets the same verdict as its
lowercase form. -/
theorem C9_chat_filter_case_insensitive_witness :
    Anthropic.is_chat_model "CLAUDE-3" = Anthropic.is_chat_model "claude-3" :=
  (C9_chat_filter_case_insensitive "CLAUDE-3" "claude-3" (by decide)).1.1

/-- C10: every id in each provider's static fallback list satisfies that
provider's chat-model filter; in particular every Anthropic fallback id
starts with the claude- prefix after lowercasing. -/
theorem C10_fallbacks_satisfy_filters :
    Anthropic.get_fallback_models.all
      (fun m => Anthropic.is_chat_model m.id) = true ∧
    Anthropic.get_fallback_models.all
      (fun m => str_starts_with (to_lowercase m.id) "claude-") = true ∧
    Groq.get_fallback_models.all (fun m => Groq.is_chat_model m.id) = true ∧
    OpenAI.get_fallback_models.all
      (fun m => OpenAI.is_chat_model m.id) = true := by
  decide
